import Mathlib

/-!
Verification of the EnerMaps WMS map-rendering core against its
natural-language specification.

Shallow embedding of:
  * `src/api/app/models/wms/map.py` — `make_polygon_style`,
    `create_default_legend`, the default-legend trigger in
    `create_style_from_legend`, the batching loop of `add_layer_to_image`,
    and the success accumulation of `get_map_image`;
  * `src/api/app/endpoints/wms.py` — `parse_envelope`, `parse_size`,
    the `get_map` pipeline and `get_feature_info`.

Numeric legend thresholds, bbox extrema and opacities are modelled as
rationals.  External collaborators (geofile store, path helpers, the
mapnik renderer) are modelled as explicit parameters or, for
`mapnik.Box2d`, by its documented normalising constructor semantics.
-/

namespace EnerMaps

/-- Layer kinds, as produced by `path.get_type` / `path.parse_unique_layer_name`
(`app/common/path.py` collaborator): vector, raster, area and CM layers. -/
inductive LayerType where
  | vector
  | raster
  | area
  | cm
deriving DecidableEq, Repr

/-- One symbology entry of a legend: RGB color, threshold value, opacity.
Mirrors the dict entries `{"red": …, "green": …, "blue": …, "value": …,
"opacity": …}` used throughout `map.py` (numeric-valued legends). -/
structure SymbologyEntry where
  red : ℤ
  green : ℤ
  blue : ℤ
  value : ℚ
  opacity : ℚ
deriving DecidableEq, Repr

/-- A legend: the `{"symbology": [...]}` dict of `map.py`. -/
structure Legend where
  symbology : List SymbologyEntry
deriving DecidableEq, Repr

/-- The RGB triple `mapnik.Color(int(red), int(green), int(blue))` built from
a symbology entry in `make_polygon_style`. -/
def entryColor (s : SymbologyEntry) : ℤ × ℤ × ℤ :=
  (s.red, s.green, s.blue)

/-- Semantic form of the filter expressions built in `make_polygon_style`:
`band lo hi` stands for the string
`"[__variable__v] < hi and [__variable__v] >= lo"`, and `tail lo` stands for
`"[__variable__v] >= lo"`. -/
inductive PolyFilter where
  | band (lo hi : ℚ)
  | tail (lo : ℚ)
deriving DecidableEq, Repr

/-- Evaluation of a polygon filter at a variable value. -/
def PolyFilter.matches (f : PolyFilter) (v : ℚ) : Bool :=
  match f with
  | .band lo hi => decide (lo ≤ v) && decide (v < hi)
  | .tail lo => decide (lo ≤ v)

/-- One rule appended by `_add_rule` inside `make_polygon_style`: a filter
expression plus a `PolygonSymbolizer` carrying fill color and fill opacity. -/
structure PolygonRule where
  filter : PolyFilter
  color : ℤ × ℤ × ℤ
  opacity : ℚ
deriving DecidableEq, Repr

/-- The interval rule emitted for a non-final legend entry `a` whose successor
is `b`: filter `[a.value, b.value)` with `a`'s color and opacity. -/
def bandRule (a b : SymbologyEntry) : PolygonRule :=
  ⟨.band a.value b.value, entryColor a, a.opacity⟩

/-- The final rule emitted for the last legend entry `a`: filter
`value >= a.value` with `a`'s color and opacity. -/
def tailRule (a : SymbologyEntry) : PolygonRule :=
  ⟨.tail a.value, entryColor a, a.opacity⟩

/-- The loop of `make_polygon_style` (`map.py` lines 310-329): the
accumulator holds the pending `min_threshold`, color and opacity taken from
the previous entry; each further entry closes a half-open band and the final
`_add_rule` emits the open-ended `>=` rule. -/
def polygonRulesAux (minT : ℚ) (color : ℤ × ℤ × ℤ) (opacity : ℚ) :
    List SymbologyEntry → List PolygonRule
  | [] => [⟨.tail minT, color, opacity⟩]
  | s :: rest =>
      ⟨.band minT s.value, color, opacity⟩ ::
        polygonRulesAux s.value (entryColor s) s.opacity rest

/-- Embedding of `make_polygon_style` (`map.py` lines 282-331), restricted to the rule
list it appends to the style.  The source indexes `legend["symbology"][0]`
unconditionally, so an empty symbology raises (modelled as `none`). -/
def make_polygon_style (legend : Legend) : Option (List PolygonRule) :=
  match legend.symbology with
  | [] => none
  | s :: rest => some (polygonRulesAux s.value (entryColor s) s.opacity rest)

/-! ### Default legend (`create_default_legend`, `map.py` lines 184-215) -/

/-- Python `round` to an integer: round half to even (banker's rounding).
All inputs fed to it by `create_default_legend` are exact dyadic rationals,
so the float tie-breaking coincides with the exact-value tie-breaking. -/
def roundHalfEven (q : ℚ) : ℤ :=
  if q - ⌊q⌋ < 1 / 2 then ⌊q⌋
  else if 1 / 2 < q - ⌊q⌋ then ⌊q⌋ + 1
  else if 2 ∣ ⌊q⌋ then ⌊q⌋ else ⌊q⌋ + 1

/-- Python `round(x, 2)`: round to 2 decimal places, ties to even. -/
def pythonRound2 (q : ℚ) : ℚ :=
  (roundHalfEven (q * 100) : ℚ) / 100

/-- The assignment `min_value = 1 if type in (path.RASTER, path.CM) else 0`. -/
def defaultMinValue (type : LayerType) : ℚ :=
  if type = .raster ∨ type = .cm then 1 else 0

/-- The assignment `max_value = 255`. -/
def defaultMaxValue : ℚ := 255

/-- The assignment `nb_of_colors = 8`. -/
def defaultNbOfColors : ℕ := 8

/-- The `n`-th default threshold:
`round(min_value + n * ((max_value - min_value) / nb_of_colors), 2)`. -/
def defaultThreshold (type : LayerType) (n : ℕ) : ℚ :=
  pythonRound2 (defaultMinValue type +
    (n : ℚ) * ((defaultMaxValue - defaultMinValue type) / (defaultNbOfColors : ℚ)))

/-- Embedding of `create_default_legend` (`map.py` lines 184-215).  The color list comes
from `sns.dark_palette(color, n_colors=8, input="rgb")` (seaborn, external):
it is passed in as `palette`, already converted to integer RGB triples; the
call returns `nb_of_colors = 8` colors.  Each palette color `n` yields one
symbology entry with the `n`-th threshold and opacity 1. -/
def create_default_legend (palette : List (ℤ × ℤ × ℤ)) (type : LayerType) :
    Legend :=
  { symbology :=
      palette.enum.map (fun nc =>
        { red := nc.2.1, green := nc.2.2.1, blue := nc.2.2.2,
          value := defaultThreshold type nc.1,
          opacity := 1 }) }

/-- Strict ascending order of a list of thresholds, as an executable check. -/
def strictlyIncreasing : List ℚ → Bool
  | [] => true
  | [_] => true
  | a :: b :: rest => decide (a < b) && strictlyIncreasing (b :: rest)

/-- The default-legend trigger in `create_style_from_legend` (`map.py` lines
155-156): `if (legend is None) or (len(legend["symbology"]) == 0): legend =
create_default_legend(type)`.  `fetched` is the result of the external legend
lookup (`client.get_legend` / `geofile.get_cm_legend`), `none` when missing. -/
def legendOrDefault (fetched : Option Legend) (palette : List (ℤ × ℤ × ℤ))
    (type : LayerType) : Legend :=
  match fetched with
  | none => create_default_legend palette type
  | some legend =>
      if legend.symbology.length = 0 then create_default_legend palette type
      else legend

/-! ### WMS endpoint parsing (`src/api/app/endpoints/wms.py`) -/

/-- Failure modes of the endpoint code: `abort(code, msg)` (flask, becomes an
HTTP response with that status and plain-text reason), a bare
`raise Exception()` (unhandled, surfaces as a generic server error), a
`ValueError` from `float(...)`, and a `KeyError` from a dict lookup. -/
inductive WmsError where
  | abort (code : ℕ) (msg : String)
  | exception
  | valueError
  | keyError
deriving DecidableEq, Repr

/-- A mapnik bounding box (extrema as rationals). -/
structure Box2d where
  minx : ℚ
  miny : ℚ
  maxx : ℚ
  maxy : ℚ
deriving DecidableEq, Repr

/-- The `mapnik.Box2d(x0, y0, x1, y1)` constructor (external renderer,
modelled from mapnik's `box2d::init` semantics): each coordinate pair is
normalised so that `minx ≤ maxx` and `miny ≤ maxy`. -/
def box2d (x0 y0 x1 y1 : ℚ) : Box2d :=
  ⟨min x0 x1, min y0 y1, max x0 x1, max y0 y1⟩

/-- Embedding of `parse_envelope` (`wms.py` lines 19-26).  The input models
`params["bbox"].split(",")`: one element per comma-separated field, carrying
the value `float(field)` would produce, or `none` when `float` would raise
`ValueError`.  The length test comes first in the source; the float
conversions run only on length-4 inputs. -/
def parse_envelope (fields : List (Option ℚ)) : Except WmsError Box2d :=
  if fields.length ≠ 4 then
    .error (.abort 400 "bounding box need four extremas")
  else
    match fields with
    | [some x0, some y0, some x1, some y1] => .ok (box2d x0 y0 x1 y1)
    | _ => .error .valueError

/-- The `Size` namedtuple. -/
structure Size where
  width : ℤ
  height : ℤ
deriving DecidableEq, Repr

/-- Embedding of `parse_size` (`wms.py` lines 49-54): `width` and `height` are the already
`int`-converted parameters; when `height * width` exceeds the configured
`MAX_SIZE` the source executes `raise Exception()` — a bare exception, not a
flask `abort`. -/
def parse_size (maxSize : ℤ) (width height : ℤ) : Except WmsError Size :=
  if maxSize < height * width then .error .exception
  else .ok ⟨width, height⟩

/-- The module-level `MIME_TO_MAPNIK` dict. -/
def MIME_TO_MAPNIK (mime : String) : Option String :=
  if mime = "image/png" then some "png"
  else if mime = "image/jpg" then some "jpg"
  else none

/-- WMS configuration consumed by the endpoint (`current_app.config["WMS"]`). -/
structure WmsConfig where
  maxSize : ℤ
  allowedOutputs : List String

/-- Embedding of `parse_format` (`wms.py` lines 72-77): a format outside the allow-list
raises a bare `Exception`; an allowed format missing from `MIME_TO_MAPNIK`
would raise `KeyError`. -/
def parse_format (cfg : WmsConfig) (mime : String) :
    Except WmsError (String × String) :=
  if mime ∉ cfg.allowedOutputs then .error .exception
  else
    match MIME_TO_MAPNIK mime with
    | some fmt => .ok (fmt, mime)
    | none => .error .keyError

/-- The layer-loading loop of `_get_map` (`wms.py` lines 179-187):
`geofile.load` either succeeds or raises `FileNotFoundError`, which the
endpoint turns into `abort(404, e.strerror)`.  `load` maps each layer name to
`Except.error strerror` on failure. -/
def loadLayers (load : String → Except String Unit) :
    List String → Except WmsError Unit
  | [] => .ok ()
  | n :: rest =>
      match load n with
      | .error msg => .error (.abort 404 msg)
      | .ok _ => loadLayers load rest

/-- A GetMap request after parameter normalization, with `width`/`height`
already `int`-converted and the bbox already split on commas. -/
structure GetMapRequest where
  format : String
  width : ℤ
  height : ℤ
  bboxFields : List (Option ℚ)
  layerNames : List String

/-- The outcome of a successful `get_map`: the image size, the zoom box, and
how many `mapnik.render` calls ran (`get_map` renders exactly once). -/
structure RenderedMap where
  size : Size
  bbox : Box2d
  renderCount : ℕ
deriving DecidableEq, Repr

/-- The `get_map` pipeline (`wms.py` lines 190-197 with `_get_map`, lines
147-188): `parse_format`, `parse_size`, `_get_map` (which re-runs
`parse_size` and loads every layer, 404 on a missing one), `parse_envelope`
via `zoom_to_box`, and only then the single `mapnik.render` call. -/
def wms_get_map (cfg : WmsConfig) (load : String → Except String Unit)
    (req : GetMapRequest) : Except WmsError RenderedMap := do
  let _fmt ← parse_format cfg req.format
  let size ← parse_size cfg.maxSize req.width req.height
  let _size2 ← parse_size cfg.maxSize req.width req.height
  let _ ← loadLayers load req.layerNames
  let bbox ← parse_envelope req.bboxFields
  .ok ⟨size, bbox, 1⟩

/-- Number of `mapnik.render` calls a `get_map` outcome performed: rendering
happens only on the success path. -/
def rendersPerformed (r : Except WmsError RenderedMap) : ℕ :=
  match r with
  | .ok m => m.renderCount
  | .error _ => 0

/-! ### GetFeatureInfo (`wms.py` lines 199-225) -/

/-- A GetFeatureInfo request after normalization: `layers` and
`query_layers` already split on commas. -/
structure FeatureInfoRequest where
  infoFormat : String
  width : ℤ
  height : ℤ
  bboxFields : List (Option ℚ)
  layerNames : List String
  queryLayers : List String

/-- Python set equality `set(xs) = set(ys)` for string lists. -/
def sameSet (xs ys : List String) : Bool :=
  xs.all (fun x => ys.contains x) && ys.all (fun y => xs.contains y)

/-- The per-layer loop of `get_feature_info` (`wms.py` lines 212-224): abort
400 on the first non-queryable layer, otherwise append every feature of every
layer, in declaration order.  `featuresAt` models
`mp.query_map_point(layerindex, x, y)` serialized to GeoJSON strings. -/
def collectFeatures (queryable : String → Bool)
    (featuresAt : String → List String) :
    List String → Except WmsError (List String)
  | [] => .ok []
  | n :: rest =>
      if queryable n then do
        let fs ← collectFeatures queryable featuresAt rest
        .ok (featuresAt n ++ fs)
      else
        .error (.abort 400 ("Requested query layer " ++ n ++ " is not queryable."))

/-- Embedding of `get_feature_info` (`wms.py` lines 199-225): info-format gate, `_get_map`
(size check and layer loading), `zoom_to_box(parse_envelope(...))`, the
`set(query_layers) != {layer.name for layer in mp.layers}` gate (the map's
layer names are exactly the request's layer names once all loads succeed),
then the per-layer feature collection. -/
def get_feature_info (maxSize : ℤ) (load : String → Except String Unit)
    (queryable : String → Bool) (featuresAt : String → List String)
    (req : FeatureInfoRequest) : Except WmsError (List String) :=
  if req.infoFormat ≠ "application/json" then
    .error (.abort 400 "this endpoint doesn\x27t support non json return value")
  else do
    let _size ← parse_size maxSize req.width req.height
    let _ ← loadLayers load req.layerNames
    let _bbox ← parse_envelope req.bboxFields
    if sameSet req.queryLayers req.layerNames then
      collectFeatures queryable featuresAt req.layerNames
    else
      .error (.abort 400 "Requested layer didnt match the query_layers parameter")

/-! ### Batched rendering (`add_layer_to_image` / `get_map_image`,
`map.py` lines 14-108) -/

/-- Everything `add_layer_to_image` observes about one requested layer and
its collaborators: whether `geofile.load` returned a layer, whether the
cached storage directory exists, the bounding-box data fetch result, the
layer's parsed type, `layer.as_mapnik_layers(data=...)`, and the
`mapnik_style` that `create_style_from_legend` would return for it. -/
structure MapLayerEnv (D ML S : Type) where
  loaded : Bool
  storageExists : Bool
  dataForBBox : Option (List D)
  ltype : LayerType
  asMapnikLayers : List D → List ML
  legendStyle : Option S

/-- The guard `path.get_type(layer_name) in (path.RASTER, path.VECTOR,
path.CM)` (`map.py` line 78). -/
def legendTypeGuard (t : LayerType) : Bool :=
  t = .raster || t = .vector || t = .cm

/-- The offsets `range(0, len(layer_data) + 1, 9)` (`map.py` line 66): the slice start
offsets `0, 9, …` up to and including the largest multiple of 9 that is
`≤ n`. -/
def batchStarts (n : ℕ) : List ℕ :=
  (List.range (n / 9 + 1)).map (fun j => j * 9)

/-- What one iteration of the batch loop did: the data slice
`layer_data[i : i + 9]`, whether `create_style_from_legend` ran during this
iteration, and whether the legend style was registered on this iteration's
map canvas (`mp.append_style`). -/
structure BatchTrace (D : Type) where
  slice : List D
  legendComputedHere : Bool
  legendAttached : Bool
deriving DecidableEq, Repr

/-- One iteration of the batch loop (`map.py` lines 66-102), carrying the
`(legend_style_created, legend_style)` state.  The legend style is created on
the first mapnik layer of the batch when the flag is unset and the type guard
holds (so only when the batch yields at least one mapnik layer); it is
registered on this batch's canvas either at the top of the iteration (when a
previous iteration created it) or right after creation. -/
def processBatch {D ML S : Type} (env : MapLayerEnv D ML S) (data : List D)
    (st : Bool × Option S) (i : ℕ) : BatchTrace D × (Bool × Option S) :=
  let slice := (data.drop i).take 9
  let mls := env.asMapnikLayers slice
  let computesHere := !st.1 && legendTypeGuard env.ltype && !mls.isEmpty
  let style2 := if computesHere then env.legendStyle else st.2
  let created2 := st.1 || computesHere
  let attached := st.2.isSome || (computesHere && style2.isSome)
  (⟨slice, computesHere, attached⟩, (created2, style2))

/-- The batch loop folded over the slice start offsets. -/
def runBatchesAux {D ML S : Type} (env : MapLayerEnv D ML S) (data : List D) :
    List ℕ → Bool × Option S → List (BatchTrace D)
  | [], _ => []
  | i :: rest, st =>
      let step := processBatch env data st i
      step.1 :: runBatchesAux env data rest step.2

/-- Embedding of `add_layer_to_image` (`map.py` lines 33-108): `False` when the layer does
not resolve or its storage directory is missing; `True` with no batches when
the bounding-box fetch returns `None` or empty data; otherwise `True`
together with the trace of the batch loop, started with
`legend_style_created = False` and `legend_style = None`. -/
def add_layer_to_image {D ML S : Type} (env : MapLayerEnv D ML S) :
    Bool × List (BatchTrace D) :=
  if env.loaded = false then (false, [])
  else if env.storageExists = false then (false, [])
  else
    match env.dataForBBox with
    | none => (true, [])
    | some data =>
        if data.length = 0 then (true, [])
        else (true, runBatchesAux env data (batchStarts data.length) (false, none))

/-- Embedding of `get_map_image` (`map.py` lines 14-30): renders every requested layer
onto one shared image and returns `None` unless some `add_layer_to_image`
call returned `True`.  The image is modelled by what was drawn onto it: the
per-layer results and batch traces. -/
def get_map_image {D ML S : Type} (envs : List (MapLayerEnv D ML S)) :
    Option (List (Bool × List (BatchTrace D))) :=
  let results := envs.map add_layer_to_image
  if results.any (fun r => r.1) then some results else none

/-! ### Concrete instances used in witnesses and counterexamples -/

/-- A two-entry legend used to instantiate C1. -/
def legendTwo : Legend :=
  ⟨[⟨255, 0, 0, 10, 1⟩, ⟨0, 255, 0, 20, 1 / 2⟩]⟩

/-- A concrete 8-color palette standing in for the external
`sns.dark_palette` result. -/
def palette8 : List (ℤ × ℤ × ℤ) :=
  [(23, 6, 13), (53, 17, 20), (84, 27, 27), (115, 38, 34),
   (146, 48, 41), (177, 59, 48), (208, 69, 55), (239, 80, 62)]

/-- A concrete single-entry legend. -/
def legendOne : Legend := ⟨[⟨255, 0, 0, 10, 1⟩]⟩

/-- A concrete layer environment whose fetch returns 9 elements. -/
def envNine : MapLayerEnv ℕ ℕ ℕ :=
  ⟨true, true, some (List.range 9), .vector, fun l => l, some 0⟩

/-- A concrete layer environment whose fetch returns 10 elements, giving two
non-degenerate batches. -/
def envTen : MapLayerEnv ℕ ℕ ℕ :=
  ⟨true, true, some (List.range 10), .vector, fun l => l, some 0⟩


/-- A concrete layer environment that resolves, has storage, and whose
bounding-box fetch returns empty data. -/
def envEmptyFetch : MapLayerEnv ℕ ℕ ℕ :=
  ⟨true, true, some ([] : List ℕ), .vector, fun l => l, some 0⟩

/-- A geofile loader that always succeeds. -/
def okLoad : String → Except String Unit := fun _ => .ok ()

/-- A tiny pixel budget, to make any canvas oversized. -/
def cfgSmall : WmsConfig := ⟨0, ["image/png"]⟩

/-- A concrete 1x1 GetMap request (oversized for `cfgSmall`). -/
def reqBig : GetMapRequest :=
  ⟨"image/png", 1, 1, [some 0, some 0, some 1, some 1], []⟩

/-- Every layer queryable. -/
def allQueryable : String → Bool := fun _ => true

/-- A point query returning no features. -/
def noFeatures : String → List String := fun _ => []

/-- A concrete GetFeatureInfo request whose `query_layers` set differs from
its `layers` set. -/
def reqMismatch : FeatureInfoRequest :=
  ⟨"application/json", 256, 256, [some 0, some 0, some 1, some 1],
    ["layerA"], ["layerB"]⟩

/-! ### Helper lemmas -/

/-- Closed form of the rule-building loop: one band rule per adjacent pair of
entries, then the tail rule for the last entry. -/
theorem polygonRulesAux_eq (l : List SymbologyEntry) (a : SymbologyEntry) :
    polygonRulesAux a.value (entryColor a) a.opacity l =
      List.zipWith bandRule (a :: l) l ++
        [tailRule ((a :: l).getLast (List.cons_ne_nil a l))] := by
  induction l generalizing a with
  | nil => rfl
  | cons s rest ih =>
      simp only [polygonRulesAux, List.zipWith, List.cons_append]
      rw [List.getLast_cons (List.cons_ne_nil s rest)]
      exact congrArg _ (ih s)

/-- Counting matches of the rules built by the loop: when the threshold chain
is sorted ascending, a value matches exactly one rule iff it is at least the
pending lower threshold, and no rule otherwise. -/
theorem polygonRulesAux_countP (l : List SymbologyEntry) (minT : ℚ)
    (color : ℤ × ℤ × ℤ) (opacity : ℚ)
    (hs : List.Chain (fun a b : ℚ => a ≤ b) minT (l.map (·.value)))
    (v : ℚ) :
    (polygonRulesAux minT color opacity l).countP
        (fun r => r.filter.matches v) =
      if minT ≤ v then 1 else 0 := by
  induction l generalizing minT color opacity with
  | nil =>
      by_cases h : minT ≤ v <;>
        simp [polygonRulesAux, PolyFilter.matches, h]
  | cons s rest ih =>
      simp only [List.map_cons, List.chain_cons] at hs
      obtain ⟨h1, h2⟩ := hs
      rw [polygonRulesAux, List.countP_cons,
        ih s.value (entryColor s) s.opacity h2]
      rcases le_or_lt s.value v with hsv | hsv
      · have hmv : minT ≤ v := le_trans h1 hsv
        simp [PolyFilter.matches, hsv, hmv, not_lt.mpr hsv]
      · have hvs : ¬ s.value ≤ v := not_le.mpr hsv
        by_cases hmv : minT ≤ v <;>
          simp [PolyFilter.matches, hsv, hvs, hmv]

/-- The thresholds of the default legend are the `defaultThreshold` values at
indices `0, …, palette.length - 1`. -/
theorem create_default_legend_values (palette : List (ℤ × ℤ × ℤ))
    (type : LayerType) :
    (create_default_legend palette type).symbology.map (·.value) =
      (List.range palette.length).map (defaultThreshold type) := by
  unfold create_default_legend
  simp only [List.map_map]
  have : (fun nc : ℕ × ℤ × ℤ × ℤ => defaultThreshold type nc.1) =
      (defaultThreshold type) ∘ Prod.fst := rfl
  rw [show ((·.value) ∘ fun nc : ℕ × ℤ × ℤ × ℤ =>
      ({ red := nc.2.1, green := nc.2.2.1, blue := nc.2.2.2,
         value := defaultThreshold type nc.1,
         opacity := 1 } : SymbologyEntry)) =
      (defaultThreshold type) ∘ Prod.fst from rfl]
  rw [← List.map_map, List.enum_map_fst]

/-- The default legend has one entry per palette color. -/
theorem create_default_legend_length (palette : List (ℤ × ℤ × ℤ))
    (type : LayerType) :
    (create_default_legend palette type).symbology.length = palette.length := by
  simp [create_default_legend]

/-- Concrete default thresholds for layer types whose value domain starts
at 0 (vector and area layers). -/
theorem defaultThreshold_values_zero (t : LayerType)
    (h : defaultMinValue t = 0) :
    (List.range 8).map (defaultThreshold t) =
      [0, 797 / 25, 255 / 4, 4781 / 50, 255 / 2, 7969 / 50, 765 / 4,
        5578 / 25] := by
  have hr : List.range 8 = [0, 1, 2, 3, 4, 5, 6, 7] := rfl
  rw [hr]
  simp only [List.map_cons, List.map_nil]
  norm_num [defaultThreshold, pythonRound2, roundHalfEven, h,
    defaultMaxValue, defaultNbOfColors]

/-- Concrete default thresholds for layer types whose value domain starts
at 1 (raster and CM layers). -/
theorem defaultThreshold_values_one (t : LayerType)
    (h : defaultMinValue t = 1) :
    (List.range 8).map (defaultThreshold t) =
      [1, 131 / 4, 129 / 2, 385 / 4, 128, 639 / 4, 383 / 2, 893 / 4] := by
  have hr : List.range 8 = [0, 1, 2, 3, 4, 5, 6, 7] := rfl
  rw [hr]
  simp only [List.map_cons, List.map_nil]
  norm_num [defaultThreshold, pythonRound2, roundHalfEven, h,
    defaultMaxValue, defaultNbOfColors]

/-- The 0-based default thresholds are strictly increasing. -/
theorem strictlyIncreasing_defaults_zero :
    strictlyIncreasing
      [0, 797 / 25, 255 / 4, 4781 / 50, 255 / 2, 7969 / 50, 765 / 4,
        5578 / 25] = true := by
  simp only [strictlyIncreasing, Bool.and_eq_true, decide_eq_true_eq]
  norm_num

/-- The 1-based default thresholds are strictly increasing. -/
theorem strictlyIncreasing_defaults_one :
    strictlyIncreasing
      [1, 131 / 4, 129 / 2, 385 / 4, 128, 639 / 4, 383 / 2, 893 / 4] =
      true := by
  simp only [strictlyIncreasing, Bool.and_eq_true, decide_eq_true_eq]
  norm_num

/-- The batch loop produces one trace per slice start offset. -/
theorem runBatchesAux_length {D ML S : Type} (env : MapLayerEnv D ML S)
    (data : List D) (starts : List ℕ) (st : Bool × Option S) :
    (runBatchesAux env data starts st).length = starts.length := by
  induction starts generalizing st with
  | nil => rfl
  | cons i rest ih => simp [runBatchesAux, ih]

/-- The data slice of each trace is `layer_data[i : i + 9]` for its start
offset, independently of the legend state. -/
theorem runBatchesAux_map_slice {D ML S : Type} (env : MapLayerEnv D ML S)
    (data : List D) (starts : List ℕ) (st : Bool × Option S) :
    (runBatchesAux env data starts st).map (·.slice) =
      starts.map (fun i => (data.drop i).take 9) := by
  induction starts generalizing st with
  | nil => rfl
  | cons i rest ih => simp [runBatchesAux, processBatch, ih]

/-- Concatenating the chunks `data[9j : 9j + 9]` for `j < k` recovers the
first `9k` elements. -/
theorem join_chunks {D : Type} (data : List D) (k : ℕ) :
    ((List.range k).map (fun j => (data.drop (j * 9)).take 9)).flatten =
      data.take (k * 9) := by
  induction k with
  | zero => rfl
  | succ k ih =>
      rw [List.range_succ, List.map_append, List.flatten_append, ih]
      simp only [List.map_cons, List.map_nil, List.flatten_cons,
        List.flatten_nil, List.append_nil]
      rw [Nat.succ_mul, List.take_add data (k * 9) 9]

/-- The slice start offsets are `0` followed by the positive multiples
of 9. -/
theorem batchStarts_cons (n : ℕ) :
    batchStarts n =
      0 :: (List.range (n / 9)).map (fun j => (j + 1) * 9) := by
  unfold batchStarts
  rw [List.range_succ_eq_map, List.map_cons, List.map_map]
  rfl

/-- Once the legend style has been created, every further batch leaves the
creation flag untouched and registers the saved style on its canvas. -/
theorem runBatchesAux_after_creation {D ML S : Type}
    (env : MapLayerEnv D ML S) (data : List D) (starts : List ℕ) (s : S) :
    ∀ tr ∈ runBatchesAux env data starts (true, some s),
      tr.legendComputedHere = false ∧ tr.legendAttached = true := by
  induction starts with
  | nil => intro tr h; cases h
  | cons i rest ih =>
      intro tr h
      simp only [runBatchesAux] at h
      have hstep : processBatch env data (true, some s) i =
          (⟨(data.drop i).take 9, false, true⟩, (true, some s)) := by
        simp [processBatch]
      rw [hstep] at h
      rcases List.mem_cons.mp h with h | h
      · subst h; exact ⟨rfl, rfl⟩
      · exact ih tr h

/-! ### Claim theorems -/

/-- C1: for every legend with `N ≥ 2` entries sorted ascending by threshold,
`make_polygon_style` emits exactly `N` filter rules; rule `i`
(for `0 ≤ i < N-1`) matches `threshold[i] ≤ value < threshold[i+1]` using
entry `i`'s color and opacity, and the final rule matches
`value ≥ threshold[N-1]` using entry `N-1`'s color and opacity; the rules
are mutually exclusive (every value matches at most one rule) and every
value `≥ threshold[0]` is matched by exactly one rule, so the intervals
partition `[threshold[0], ∞)` with no gaps or overlaps. -/
theorem claim_C1_polygon_style_partition (l : List SymbologyEntry)
    (hN : 2 ≤ l.length)
    (hsorted : List.Chain' (fun a b : SymbologyEntry => a.value ≤ b.value) l) :
    ∃ rules, make_polygon_style ⟨l⟩ = some rules ∧
      rules.length = l.length ∧
      (∀ i a b, l.get? i = some a → l.get? (i + 1) = some b →
        rules.get? i = some (bandRule a b)) ∧
      (∀ a, l.getLast? = some a →
        rules.get? (l.length - 1) = some (tailRule a)) ∧
      (∀ v : ℚ, rules.countP (fun r => r.filter.matches v) ≤ 1) ∧
      (∀ a v, l.head? = some a → a.value ≤ v →
        rules.countP (fun r => r.filter.matches v) = 1) := by
  match l, hN with
  | s :: rest, _ =>
    have hc : List.Chain (fun a b : SymbologyEntry => a.value ≤ b.value)
        s rest := hsorted
    have hchain : List.Chain (fun a b : ℚ => a ≤ b) s.value
        (rest.map (·.value)) :=
      (List.chain_map (fun e : SymbologyEntry => e.value)).mpr hc
    refine ⟨polygonRulesAux s.value (entryColor s) s.opacity rest, rfl,
      ?_, ?_, ?_, ?_, ?_⟩
    · rw [polygonRulesAux_eq rest s]
      simp [List.length_zipWith]
    · intro i a b hga hgb
      rw [List.get?_cons_succ] at hgb
      have hib : i < rest.length := by
        rcases List.get?_eq_some.mp hgb with ⟨h, _⟩
        exact h
      rw [polygonRulesAux_eq rest s]
      rw [List.get?_append (by simpa [List.length_zipWith] using hib)]
      rw [List.get?_zipWith']
      simp only [List.get?_eq_getElem?] at hga hgb
      simp [hga, hgb]
    · intro a hlast
      have hne : (s :: rest) ≠ ([] : List SymbologyEntry) :=
        List.cons_ne_nil s rest
      have ha : (s :: rest).getLast hne = a := by
        have := List.getLast?_eq_getLast (s :: rest) hne
        rw [this] at hlast
        exact Option.some.inj hlast
      rw [polygonRulesAux_eq rest s]
      have hlen : (List.zipWith bandRule (s :: rest) rest).length =
          rest.length := by
        simp [List.length_zipWith]
      rw [List.length_cons, Nat.add_sub_cancel,
        List.get?_append_right (by omega)]
      simp [hlen, ha]
    · intro v
      rw [polygonRulesAux_countP rest s.value (entryColor s) s.opacity
        hchain v]
      split <;> omega
    · intro a v hhead hle
      have ha : a = s := by
        simpa using hhead.symm
      rw [polygonRulesAux_countP rest s.value (entryColor s) s.opacity
        hchain v]
      rw [if_pos (ha ▸ hle)]

/-- Witness for C1 at a concrete two-entry sorted legend. -/
theorem claim_C1_witness :
    (2 ≤ legendTwo.symbology.length ∧
      List.Chain' (fun a b : SymbologyEntry => a.value ≤ b.value)
        legendTwo.symbology) ∧
    (∃ rules, make_polygon_style ⟨legendTwo.symbology⟩ = some rules ∧
      rules.length = legendTwo.symbology.length ∧
      (∀ i a b, legendTwo.symbology.get? i = some a →
        legendTwo.symbology.get? (i + 1) = some b →
        rules.get? i = some (bandRule a b)) ∧
      (∀ a, legendTwo.symbology.getLast? = some a →
        rules.get? (legendTwo.symbology.length - 1) = some (tailRule a)) ∧
      (∀ v : ℚ, rules.countP (fun r => r.filter.matches v) ≤ 1) ∧
      (∀ a v, legendTwo.symbology.head? = some a → a.value ≤ v →
        rules.countP (fun r => r.filter.matches v) = 1)) :=
  ⟨⟨by decide, List.chain'_pair.mpr (by norm_num)⟩,
    claim_C1_polygon_style_partition legendTwo.symbology
      (by decide) (List.chain'_pair.mpr (by norm_num))⟩

/-- C3 counterexample: a fetched legend with exactly one symbology entry does
not trigger default-legend synthesis — `create_style_from_legend` keeps it
unchanged, so the resolved legend has 1 entry, not 8. -/
theorem claim_C3_counterexample :
    legendOrDefault (some legendOne) palette8 LayerType.vector = legendOne ∧
    ¬ (legendOrDefault (some legendOne) palette8
        LayerType.vector).symbology.length = 8 := by
  decide

/-- C3 (amended): default-legend synthesis fires exactly when the fetched
legend is missing or has zero symbology entries (a single-entry legend is
kept as-is); the synthesized default has exactly 8 entries (one per color of
the 8-color palette), with strictly increasing thresholds
`round(min + n * ((255 - min) / 8), 2)` for `n = 0, …, 7`, starting at
`min = 1` for raster/CM layers and `min = 0` for vector layers. -/
theorem claim_C3_default_legend (palette : List (ℤ × ℤ × ℤ))
    (fetched : Option Legend) (type : LayerType)
    (hpal : palette.length = 8)
    (htrig : fetched = none ∨
      ∃ lg, fetched = some lg ∧ lg.symbology.length = 0) :
    legendOrDefault fetched palette type = create_default_legend palette type ∧
    (create_default_legend palette type).symbology.length = 8 ∧
    (create_default_legend palette type).symbology.map (·.value) =
      (List.range 8).map (defaultThreshold type) ∧
    strictlyIncreasing
      ((create_default_legend palette type).symbology.map (·.value)) = true ∧
    ((create_default_legend palette type).symbology.map (·.value)).head? =
      some (defaultMinValue type) ∧
    ((type = .raster ∨ type = .cm) → defaultMinValue type = 1) ∧
    (type = .vector → defaultMinValue type = 0) := by
  have hvals : (create_default_legend palette type).symbology.map (·.value) =
      (List.range 8).map (defaultThreshold type) := by
    rw [create_default_legend_values, hpal]
  refine ⟨?_, ?_, hvals, ?_, ?_, ?_, ?_⟩
  · rcases htrig with h | ⟨lg, h, hlen⟩
    · rw [h]; rfl
    · rw [h]; simp [legendOrDefault, hlen]
  · rw [create_default_legend_length, hpal]
  · rw [hvals]
    cases type
    · rw [defaultThreshold_values_zero LayerType.vector (by decide)]
      exact strictlyIncreasing_defaults_zero
    · rw [defaultThreshold_values_one LayerType.raster (by decide)]
      exact strictlyIncreasing_defaults_one
    · rw [defaultThreshold_values_zero LayerType.area (by decide)]
      exact strictlyIncreasing_defaults_zero
    · rw [defaultThreshold_values_one LayerType.cm (by decide)]
      exact strictlyIncreasing_defaults_one
  · rw [hvals]
    cases type
    · rw [defaultThreshold_values_zero LayerType.vector (by decide)]; rfl
    · rw [defaultThreshold_values_one LayerType.raster (by decide)]; rfl
    · rw [defaultThreshold_values_zero LayerType.area (by decide)]; rfl
    · rw [defaultThreshold_values_one LayerType.cm (by decide)]; rfl
  · intro h
    rcases h with h | h <;> rw [h] <;> rfl
  · intro h
    rw [h]; rfl

/-- Witness for C3 (amended) with a missing fetched legend, the concrete
8-color palette and a vector layer. -/
theorem claim_C3_witness :
    (palette8.length = 8 ∧
      ((none : Option Legend) = none ∨
        ∃ lg, (none : Option Legend) = some lg ∧ lg.symbology.length = 0)) ∧
    (legendOrDefault none palette8 LayerType.vector =
        create_default_legend palette8 LayerType.vector ∧
      (create_default_legend palette8 LayerType.vector).symbology.length = 8 ∧
      (create_default_legend palette8 LayerType.vector).symbology.map
          (·.value) =
        (List.range 8).map (defaultThreshold LayerType.vector) ∧
      strictlyIncreasing
        ((create_default_legend palette8 LayerType.vector).symbology.map
          (·.value)) = true ∧
      ((create_default_legend palette8 LayerType.vector).symbology.map
          (·.value)).head? = some (defaultMinValue LayerType.vector) ∧
      ((LayerType.vector = .raster ∨ LayerType.vector = .cm) →
        defaultMinValue LayerType.vector = 1) ∧
      (LayerType.vector = .vector → defaultMinValue LayerType.vector = 0)) :=
  ⟨⟨by decide, Or.inl rfl⟩,
    claim_C3_default_legend palette8 none LayerType.vector
      (by decide) (Or.inl rfl)⟩

/-- C10: a legend with exactly one symbology entry does not trigger
default-legend synthesis (which fires only on zero entries), and
`make_polygon_style` emits exactly one rule, whose filter is
`value ≥ threshold[0]`; any value strictly below `threshold[0]` matches no
rule, so the single-entry style does not cover all input values. -/
theorem claim_C10_single_entry_style (s : SymbologyEntry)
    (palette : List (ℤ × ℤ × ℤ)) (type : LayerType) :
    make_polygon_style ⟨[s]⟩ = some [tailRule s] ∧
    legendOrDefault (some ⟨[s]⟩) palette type = ⟨[s]⟩ ∧
    (∀ v : ℚ, v < s.value →
      ([tailRule s].countP (fun r => r.filter.matches v)) = 0) := by
  refine ⟨rfl, by simp [legendOrDefault], ?_⟩
  intro v hv
  simp [tailRule, PolyFilter.matches, List.countP_cons, not_le.mpr hv]

/-- Witness for C10 at a concrete single-entry legend and a value below its
threshold. -/
theorem claim_C10_witness :
    make_polygon_style ⟨[(⟨255, 0, 0, 10, 1⟩ : SymbologyEntry)]⟩ =
      some [tailRule ⟨255, 0, 0, 10, 1⟩] ∧
    ([tailRule (⟨255, 0, 0, 10, 1⟩ : SymbologyEntry)].countP
      (fun r => r.filter.matches 5)) = 0 :=
  ⟨(claim_C10_single_entry_style ⟨255, 0, 0, 10, 1⟩ palette8 .vector).1,
    (claim_C10_single_entry_style ⟨255, 0, 0, 10, 1⟩ palette8 .vector).2.2
      5 (by norm_num)⟩

/-- C2 counterexample: a layer whose bounding-box fetch returns exactly 9
data elements is rendered in 2 batches (the loop runs over
`range(0, 9 + 1, 9) = [0, 9]`, the second slice being empty), while
`ceil(9 / 9) = 1`; so the batch count is not `ceil(F / 9)` when `9 ∣ F`. -/
theorem claim_C2_counterexample :
    (add_layer_to_image envNine).2.length = 2 ∧
    (9 + 9 - 1) / 9 = 1 ∧
    ¬ (add_layer_to_image envNine).2.length = (9 + 9 - 1) / 9 := by
  refine ⟨by decide, by decide, by decide⟩

/-- C2 (amended): for a layer whose bounding-box fetch returns `F ≥ 1` data
elements, the loop `range(0, F + 1, 9)` partitions the data into slices of
at most 9 elements whose concatenation is the data, and the number of render
batches (map canvases constructed and rendered onto the shared image) is
`F / 9 + 1 = ceil((F + 1) / 9)` — which equals `ceil(F / 9)` exactly when
`F` is not a multiple of 9, and exceeds it by one (a trailing empty slice)
when `9 ∣ F`. -/
theorem claim_C2_batch_count {D ML S : Type} (env : MapLayerEnv D ML S)
    (data : List D) (hl : env.loaded = true) (hs : env.storageExists = true)
    (hd : env.dataForBBox = some data) (hF : 1 ≤ data.length) :
    (add_layer_to_image env).1 = true ∧
    (add_layer_to_image env).2.length = data.length / 9 + 1 ∧
    (∀ tr ∈ (add_layer_to_image env).2, tr.slice.length ≤ 9) ∧
    ((add_layer_to_image env).2.map (·.slice)).flatten = data := by
  have hrun : add_layer_to_image env =
      (true, runBatchesAux env data (batchStarts data.length) (false, none)) := by
    unfold add_layer_to_image
    rw [hl, hs, hd]
    simp only [Bool.true_eq_false, if_false]
    rw [if_neg (by omega)]
  refine ⟨by rw [hrun], ?_, ?_, ?_⟩
  · rw [hrun]
    simp only [runBatchesAux_length]
    simp [batchStarts]
  · intro tr htr
    rw [hrun] at htr
    have hsl : tr.slice ∈
        (runBatchesAux env data (batchStarts data.length)
          (false, none)).map (·.slice) :=
      List.mem_map_of_mem _ htr
    rw [runBatchesAux_map_slice] at hsl
    rcases List.mem_map.mp hsl with ⟨i, _, hi⟩
    rw [← hi]
    exact ((data.drop i).length_take_le 9)
  · rw [hrun]
    simp only [runBatchesAux_map_slice]
    unfold batchStarts
    rw [List.map_map]
    have : ((fun i => (data.drop i).take 9) ∘ fun j => j * 9) =
        fun j => (data.drop (j * 9)).take 9 := rfl
    rw [this, join_chunks]
    apply List.take_all_of_le
    have := Nat.div_add_mod data.length 9
    have h9 : data.length % 9 < 9 := Nat.mod_lt _ (by omega)
    omega

/-- Witness for C2 (amended) at a concrete 9-element layer. -/
theorem claim_C2_witness :
    (envNine.loaded = true ∧ envNine.storageExists = true ∧
      envNine.dataForBBox = some (List.range 9) ∧
      1 ≤ (List.range 9).length) ∧
    ((add_layer_to_image envNine).1 = true ∧
      (add_layer_to_image envNine).2.length = (List.range 9).length / 9 + 1 ∧
      (∀ tr ∈ (add_layer_to_image envNine).2, tr.slice.length ≤ 9) ∧
      ((add_layer_to_image envNine).2.map (·.slice)).flatten =
        List.range 9) :=
  ⟨⟨rfl, rfl, rfl, by decide⟩,
    claim_C2_batch_count envNine (List.range 9) rfl rfl rfl (by decide)⟩

/-- C4 counterexample: with 10 data elements the layer is rendered in two
batches and the legend style is registered (`mp.append_style`) on both batch
canvases — the second batch re-attaches the saved style at the top of the
loop (`map.py` lines 72-73) — so it is not attached to exactly one batch. -/
theorem claim_C4_counterexample :
    ((add_layer_to_image envTen).2.countP (fun tr => tr.legendAttached)) = 2 ∧
    ¬ ((add_layer_to_image envTen).2.countP
        (fun tr => tr.legendAttached)) = 1 := by
  refine ⟨by decide, by decide⟩

/-- C4 (amended): for a layer of a legend-styled type rendered in one or
more batches, the data-driven legend style is derived exactly once — during
the first batch — and never recomputed by later batches; the saved style is
then registered on every batch's canvas (the first at creation, subsequent
ones from the saved `legend_style` at the top of the loop). -/
theorem claim_C4_legend_once {D ML S : Type} (env : MapLayerEnv D ML S)
    (data : List D) (s : S)
    (hl : env.loaded = true) (hs : env.storageExists = true)
    (hd : env.dataForBBox = some data) (hF : 1 ≤ data.length)
    (hguard : legendTypeGuard env.ltype = true)
    (hstyle : env.legendStyle = some s)
    (hml : env.asMapnikLayers (data.take 9) ≠ []) :
    ((add_layer_to_image env).2.countP (fun tr => tr.legendComputedHere)) = 1 ∧
    ((add_layer_to_image env).2.map
      (fun tr => tr.legendComputedHere)).head? = some true ∧
    (∀ tr ∈ (add_layer_to_image env).2, tr.legendAttached = true) := by
  have hrun : add_layer_to_image env =
      (true, runBatchesAux env data (batchStarts data.length) (false, none)) := by
    unfold add_layer_to_image
    rw [hl, hs, hd]
    simp only [Bool.true_eq_false, if_false]
    rw [if_neg (by omega)]
  have hempty : (env.asMapnikLayers ((data.drop 0).take 9)).isEmpty = false := by
    rw [List.drop_zero, List.isEmpty_eq_false]
    exact hml
  have hstep : processBatch env data (false, none) 0 =
      (⟨(data.drop 0).take 9, true, true⟩, (true, some s)) := by
    simp [processBatch, hguard, hempty, hstyle, hml]
  have hsplit : runBatchesAux env data (batchStarts data.length)
      (false, none) =
      ⟨(data.drop 0).take 9, true, true⟩ ::
        runBatchesAux env data
          ((List.range (data.length / 9)).map (fun j => (j + 1) * 9))
          (true, some s) := by
    rw [batchStarts_cons]
    simp only [runBatchesAux]
    rw [hstep]
  refine ⟨?_, ?_, ?_⟩
  · rw [hrun]
    simp only [hsplit, List.countP_cons]
    rw [List.countP_eq_zero.mpr]
    · simp
    · intro tr htr
      simp [(runBatchesAux_after_creation env data _ s tr htr).1]
  · rw [hrun]
    simp [hsplit]
  · intro tr htr
    rw [hrun] at htr
    rw [hsplit] at htr
    rcases List.mem_cons.mp htr with h | h
    · rw [h]
    · exact (runBatchesAux_after_creation env data _ s tr h).2

/-- Witness for C4 (amended) at the concrete 10-element layer. -/
theorem claim_C4_witness :
    (envTen.loaded = true ∧ envTen.storageExists = true ∧
      envTen.dataForBBox = some (List.range 10) ∧
      1 ≤ (List.range 10).length ∧
      legendTypeGuard envTen.ltype = true ∧
      envTen.legendStyle = some 0 ∧
      envTen.asMapnikLayers ((List.range 10).take 9) ≠ []) ∧
    (((add_layer_to_image envTen).2.countP
        (fun tr => tr.legendComputedHere)) = 1 ∧
      ((add_layer_to_image envTen).2.map
        (fun tr => tr.legendComputedHere)).head? = some true ∧
      (∀ tr ∈ (add_layer_to_image envTen).2, tr.legendAttached = true)) :=
  ⟨⟨rfl, rfl, rfl, by decide, rfl, rfl, by decide⟩,
    claim_C4_legend_once envTen (List.range 10) 0 rfl rfl rfl (by decide)
      rfl rfl (by decide)⟩

/-- C5: `get_map_image` returns `None` only when no requested layer
contributed (its `add_layer_to_image` returned `False`); a layer that
resolves with existing storage always counts as contributing — even when its
bounding-box fetch returns `None` or empty data — so the accumulated image
is returned whenever at least one requested layer resolves with existing
storage. -/
theorem claim_C5_none_only_if_all_fail {D ML S : Type}
    (envs : List (MapLayerEnv D ML S)) :
    (get_map_image envs = none →
      ∀ env ∈ envs, (add_layer_to_image env).1 = false) ∧
    (∀ env : MapLayerEnv D ML S, env.loaded = true →
      env.storageExists = true → (add_layer_to_image env).1 = true) ∧
    ((∃ env ∈ envs, env.loaded = true ∧ env.storageExists = true) →
      ∃ img, get_map_image envs = some img) := by
  have hsucc : ∀ env : MapLayerEnv D ML S, env.loaded = true →
      env.storageExists = true → (add_layer_to_image env).1 = true := by
    intro env h1 h2
    unfold add_layer_to_image
    rw [h1, h2]
    simp only [Bool.true_eq_false, if_false]
    cases env.dataForBBox with
    | none => rfl
    | some data =>
        simp only
        split <;> rfl
  refine ⟨?_, hsucc, ?_⟩
  · intro hnone env hmem
    simp only [get_map_image] at hnone
    split at hnone
    · cases hnone
    · rename_i hany
      have hfalse : (envs.map add_layer_to_image).any (fun r => r.1) = false := by
        revert hany
        cases (envs.map add_layer_to_image).any (fun r => r.1) <;> simp
      have hall := List.any_eq_false.mp hfalse
      have hmem2 : add_layer_to_image env ∈ envs.map add_layer_to_image :=
        List.mem_map_of_mem _ hmem
      have := hall _ hmem2
      revert this
      cases (add_layer_to_image env).1 <;> simp
  · intro ⟨env, hmem, h1, h2⟩
    refine ⟨envs.map add_layer_to_image, ?_⟩
    unfold get_map_image
    rw [if_pos]
    exact List.any_eq_true.mpr
      ⟨add_layer_to_image env, List.mem_map_of_mem _ hmem, hsucc env h1 h2⟩

/-- Witness for C5: a single layer that resolves with existing storage but an
empty bounding-box fetch still counts as contributing, so the image is
returned. -/
theorem claim_C5_witness :
    (add_layer_to_image envEmptyFetch).1 = true ∧
    (∃ img, get_map_image [envEmptyFetch] = some img) :=
  ⟨(claim_C5_none_only_if_all_fail
      ([] : List (MapLayerEnv ℕ ℕ ℕ))).2.1 envEmptyFetch rfl rfl,
    (claim_C5_none_only_if_all_fail [envEmptyFetch]).2.2
      ⟨envEmptyFetch, List.mem_singleton.mpr rfl, rfl, rfl⟩⟩

/-- C6 counterexample: a GetMap request whose pixel count exceeds `MAX_SIZE`
does not fail with an HTTP 400 carrying a plain-text reason — `parse_size`
executes a bare `raise Exception()`, which surfaces as a generic server
error, not a flask `abort(400, ...)`. -/
theorem claim_C6_counterexample :
    wms_get_map cfgSmall okLoad reqBig = .error .exception ∧
    ¬ ∃ msg, wms_get_map cfgSmall okLoad reqBig = .error (.abort 400 msg) := by
  have h : wms_get_map cfgSmall okLoad reqBig = .error .exception := rfl
  refine ⟨h, ?_⟩
  rintro ⟨msg, hmsg⟩
  rw [h] at hmsg
  exact WmsError.noConfusion (Except.error.inj hmsg)

/-- C6 (amended): for every GetMap request with an allowed format whose
parsed `width * height` product exceeds the configured `MAX_SIZE` pixel
budget, the request fails before any rendering is performed — but with an
unhandled bare exception (a generic server error), not an HTTP 400 client
error. -/
theorem claim_C6_oversized_no_render (cfg : WmsConfig)
    (load : String → Except String Unit) (req : GetMapRequest)
    (hover : cfg.maxSize < req.height * req.width)
    (hfmt : ∃ p, parse_format cfg req.format = .ok p) :
    wms_get_map cfg load req = .error .exception ∧
    rendersPerformed (wms_get_map cfg load req) = 0 := by
  obtain ⟨p, hp⟩ := hfmt
  have hps : parse_size cfg.maxSize req.width req.height =
      .error .exception := by
    unfold parse_size
    rw [if_pos hover]
  have h : wms_get_map cfg load req = .error .exception := by
    unfold wms_get_map
    rw [hp, hps]
    rfl
  exact ⟨h, by rw [h]; rfl⟩

/-- Witness for C6 (amended) at a concrete oversized request. -/
theorem claim_C6_witness :
    (cfgSmall.maxSize < reqBig.height * reqBig.width ∧
      parse_format cfgSmall reqBig.format = .ok ("png", "image/png")) ∧
    (wms_get_map cfgSmall okLoad reqBig = .error .exception ∧
      rendersPerformed (wms_get_map cfgSmall okLoad reqBig) = 0) :=
  ⟨⟨by decide, rfl⟩,
    claim_C6_oversized_no_render cfgSmall okLoad reqBig (by decide)
      ⟨("png", "image/png"), rfl⟩⟩

/-- C7 counterexample: a bbox of four comma-separated fields whose last
field is not a float is "not exactly 4 comma-separated floats", yet parsing
fails with an uncaught `ValueError` from `float(...)`, not with the HTTP 400
"bounding box need four extremas" response. -/
theorem claim_C7_counterexample :
    parse_envelope [some 1, some 2, some 3, none] = .error .valueError ∧
    ¬ parse_envelope [some 1, some 2, some 3, none] =
        .error (.abort 400 "bounding box need four extremas") := by
  refine ⟨rfl, ?_⟩
  intro h
  exact WmsError.noConfusion (Except.error.inj h)

/-- C7 (amended): a bbox with a field count other than 4 fails with HTTP 400
"bounding box need four extremas"; a bbox of exactly 4 comma-separated
floats parses successfully into the box built from those four extrema in
order; a bbox of exactly 4 fields any of which is not a float fails with an
uncaught `ValueError` (not a 400). -/
theorem claim_C7_parse_envelope_cases (fields : List (Option ℚ)) :
    (fields.length ≠ 4 →
      parse_envelope fields =
        .error (.abort 400 "bounding box need four extremas")) ∧
    (∀ x0 y0 x1 y1, fields = [some x0, some y0, some x1, some y1] →
      parse_envelope fields = .ok (box2d x0 y0 x1 y1)) ∧
    (fields.length = 4 → none ∈ fields →
      parse_envelope fields = .error .valueError) := by
  refine ⟨?_, ?_, ?_⟩
  · intro h
    unfold parse_envelope
    rw [if_pos h]
  · intro x0 y0 x1 y1 h
    subst h
    rfl
  · intro h4 hnone
    rcases fields with _ | ⟨a, fields⟩
    · simp at h4
    rcases fields with _ | ⟨b, fields⟩
    · simp at h4
    rcases fields with _ | ⟨c, fields⟩
    · simp at h4
    rcases fields with _ | ⟨d, fields⟩
    · simp at h4
    rcases fields with _ | ⟨e, fields⟩
    · cases a <;> cases b <;> cases c <;> cases d <;>
        first
          | rfl
          | simp at hnone
    · simp [List.length_cons] at h4

/-- Witness for C7 (amended): a short bbox aborts with 400, a well-formed
bbox parses, a 4-field bbox with a non-float field raises `ValueError`. -/
theorem claim_C7_witness :
    parse_envelope [some 0] =
      .error (.abort 400 "bounding box need four extremas") ∧
    parse_envelope [some 1, some 2, some 3, some 4] = .ok (box2d 1 2 3 4) ∧
    parse_envelope [some 1, some 2, some 3, none] = .error .valueError :=
  ⟨(claim_C7_parse_envelope_cases [some 0]).1 (by decide),
    (claim_C7_parse_envelope_cases [some 1, some 2, some 3, some 4]).2.1
      1 2 3 4 rfl,
    (claim_C7_parse_envelope_cases [some 1, some 2, some 3, none]).2.2
      (by decide) (by decide)⟩

/-- C8: a GetFeatureInfo request that reaches the layer-set comparison (json
info format, size within budget, all layers load, bbox parses) and whose
`query_layers` name set does not equal the map's layer name set fails with
HTTP 400 "Requested layer didnt match the query_layers parameter" (the
source concatenates the two string literals), and no features are
returned. -/
theorem claim_C8_query_layers_mismatch (maxSize : ℤ)
    (load : String → Except String Unit) (queryable : String → Bool)
    (featuresAt : String → List String) (req : FeatureInfoRequest)
    (hfmt : req.infoFormat = "application/json")
    (hsz : req.height * req.width ≤ maxSize)
    (hload : loadLayers load req.layerNames = .ok ())
    (hbbox : ∃ b, parse_envelope req.bboxFields = .ok b)
    (hmm : sameSet req.queryLayers req.layerNames = false) :
    get_feature_info maxSize load queryable featuresAt req =
      .error (.abort 400
        "Requested layer didnt match the query_layers parameter") ∧
    ∀ fs, ¬ get_feature_info maxSize load queryable featuresAt req =
      .ok fs := by
  obtain ⟨b, hb⟩ := hbbox
  have hps : parse_size maxSize req.width req.height =
      .ok ⟨req.width, req.height⟩ := by
    unfold parse_size
    rw [if_neg (not_lt.mpr hsz)]
  have h : get_feature_info maxSize load queryable featuresAt req =
      .error (.abort 400
        "Requested layer didnt match the query_layers parameter") := by
    unfold get_feature_info
    rw [hfmt]
    rw [if_neg (by simp)]
    rw [hps, hload, hb, hmm]
    rfl
  refine ⟨h, ?_⟩
  intro fs hok
  rw [h] at hok
  exact Except.noConfusion hok

/-- Witness for C8 at a concrete mismatching request. -/
theorem claim_C8_witness :
    (reqMismatch.infoFormat = "application/json" ∧
      reqMismatch.height * reqMismatch.width ≤ (1000000 : ℤ) ∧
      loadLayers okLoad reqMismatch.layerNames = .ok () ∧
      parse_envelope reqMismatch.bboxFields = .ok (box2d 0 0 1 1) ∧
      sameSet reqMismatch.queryLayers reqMismatch.layerNames = false) ∧
    (get_feature_info 1000000 okLoad allQueryable noFeatures reqMismatch =
      .error (.abort 400
        "Requested layer didnt match the query_layers parameter")) :=
  ⟨⟨rfl, by decide, rfl, rfl, by decide⟩,
    (claim_C8_query_layers_mismatch 1000000 okLoad allQueryable noFeatures
      reqMismatch rfl (by decide) rfl ⟨box2d 0 0 1 1, rfl⟩ (by decide)).1⟩

/-- C9 counterexample: the degenerate bbox `0,0,0,0` is accepted by
`parse_envelope`, but its box has `minX = maxX` and `minY = maxY`, violating
the strict ordering invariant. -/
theorem claim_C9_counterexample :
    parse_envelope [some 0, some 0, some 0, some 0] = .ok (box2d 0 0 0 0) ∧
    ¬ ((box2d 0 0 0 0).minx < (box2d 0 0 0 0).maxx ∧
        (box2d 0 0 0 0).miny < (box2d 0 0 0 0).maxy) := by
  refine ⟨rfl, ?_⟩
  intro ⟨h1, _⟩
  simp [box2d] at h1

/-- C9 (amended): every bbox accepted by `parse_envelope` satisfies the
non-strict ordering invariant `minX ≤ maxX` and `minY ≤ maxY` (the
`mapnik.Box2d` constructor normalises each coordinate pair, but a degenerate
bbox yields equal extrema, so the strict form fails). -/
theorem claim_C9_envelope_ordering (fields : List (Option ℚ)) (b : Box2d)
    (h : parse_envelope fields = .ok b) :
    b.minx ≤ b.maxx ∧ b.miny ≤ b.maxy := by
  unfold parse_envelope at h
  by_cases h4 : fields.length ≠ 4
  · rw [if_pos h4] at h
    exact Except.noConfusion h
  · rw [if_neg h4] at h
    rcases fields with _ | ⟨a, fields⟩
    · simp at h4
    rcases fields with _ | ⟨x, fields⟩
    · simp at h4
    rcases fields with _ | ⟨y, fields⟩
    · simp at h4
    rcases fields with _ | ⟨z, fields⟩
    · simp at h4
    rcases fields with _ | ⟨w, fields⟩
    · cases a <;> cases x <;> cases y <;> cases z <;>
        first
          | exact Except.noConfusion h
          | (rw [← Except.ok.inj h]
             exact ⟨min_le_max, min_le_max⟩)
    · simp [List.length_cons] at h4

/-- Witness for C9 (amended) at a concrete well-formed bbox. -/
theorem claim_C9_witness :
    (box2d 1 2 3 4).minx ≤ (box2d 1 2 3 4).maxx ∧
    (box2d 1 2 3 4).miny ≤ (box2d 1 2 3 4).maxy :=
  claim_C9_envelope_ordering [some 1, some 2, some 3, some 4]
    (box2d 1 2 3 4) rfl

end EnerMaps
